import Mathlib

/-!
Verification of the Ernaehrungsplan planning/calculation engine.

The engine consists of a static meal catalog grouped into four ordered
categories, pure target-calculation functions (Mifflin-St Jeor BMR, TDEE,
calorie and protein targets, each truncated to an integer), a randomized
day-plan generator that picks one meal per category while excluding
already-used meal names, a week-plan generator calling the day generator
seven times, and an aggregator summing macro fields.

Python's global random-number generator is modelled as an explicit stream
`rs : Nat → Nat` of raw draws; the `k`-th call to `random.choice` on a
sequence of length `n` returns the element at index `rs k % n`, and fails
on an empty sequence (Python raises IndexError there; the specification
names this condition EmptyCandidatePool). `int(...)` on a real value is
truncation toward zero, modelled on exact rationals by `truncQ`.
-/

set_option maxRecDepth 4000

/-- A meal: a name plus four integer macro fields (as in the frozen
dataclass `Meal`). -/
structure Meal where
  name : String
  calories : ℤ
  protein : ℤ
  carbs : ℤ
  fat : ℤ
deriving DecidableEq

/-- The static meal catalog `MEALS`, an insertion-ordered mapping from the
category labels breakfast, lunch, dinner, snack to their meal lists. -/
def MEALS : List (String × List Meal) :=
  [ ("breakfast",
      [ ⟨"Haferflocken mit Beeren", 500, 30, 55, 15⟩,
        ⟨"Skyr mit Nüssen", 480, 40, 35, 18⟩,
        ⟨"Rührei & Vollkornbrot", 520, 35, 40, 20⟩ ]),
    ("lunch",
      [ ⟨"Hähnchen & Reis", 700, 45, 70, 15⟩,
        ⟨"Lachs & Kartoffeln", 720, 40, 50, 30⟩,
        ⟨"Rinderhack & Quinoa", 680, 42, 55, 25⟩ ]),
    ("dinner",
      [ ⟨"Putenbrust & Gemüse", 600, 45, 30, 20⟩,
        ⟨"Tofu-Gemüse-Pfanne", 580, 35, 40, 22⟩,
        ⟨"Omelette & Salat", 550, 40, 20, 25⟩ ]),
    ("snack",
      [ ⟨"Proteinshake", 250, 30, 10, 5⟩,
        ⟨"Hüttenkäse & Obst", 280, 25, 20, 8⟩,
        ⟨"Nüsse & Apfel", 300, 10, 25, 20⟩ ]) ]

/-- The category meal lists in iteration order (`MEALS.values()`). -/
def catalogCategories : List (List Meal) := MEALS.map Prod.snd

/-- The goal enumeration (`Goal.MUSKELAUFBAU`, `Goal.ABNEHMEN`). -/
inductive Goal where
  | muskelaufbau
  | abnehmen
deriving DecidableEq

/-- Truncation of a rational toward zero, the semantics of Python `int()`
applied to a real-valued expression. -/
def truncQ (q : ℚ) : ℤ := if q < 0 then ⌈q⌉ else ⌊q⌋

/-- `bmr(weight, height, age, gender)` from the source: Mifflin-St Jeor,
`+5` when the gender string equals "Männlich", `-161` otherwise, truncated
to an integer. -/
def bmr (weight height age : ℚ) (gender : String) : ℤ :=
  truncQ (10 * weight + 6.25 * height - 5 * age +
    (if gender = "Männlich" then 5 else -161))

/-- `tdee(bmr_value, activity)` from the source. -/
def tdee (bmrValue : ℤ) (activity : ℚ) : ℤ :=
  truncQ (bmrValue * activity)

/-- `target_calories(goal, tdee_value)` from the source: a 1.15 surplus
factor for muscle gain, a 0.8 deficit factor for weight loss, truncated. -/
def target_calories (goal : Goal) (tdeeValue : ℤ) : ℤ :=
  truncQ (tdeeValue * (if goal = Goal.muskelaufbau then 1.15 else 0.8))

/-- `protein_target(weight, goal)` from the source. -/
def protein_target (weight : ℚ) (goal : Goal) : ℤ :=
  truncQ (weight * (if goal = Goal.muskelaufbau then 2.2 else 1.8))

/-- The one plan-generation error of the specification's taxonomy. -/
inductive PlanError where
  | emptyCandidatePool
deriving DecidableEq

/-- `random.choice(options)` under one raw draw `r`: the element at index
`r % options.length`, or failure on an empty sequence (for `options = []`
the index query is out of range and yields `none`). -/
def chooseFrom (r : Nat) (options : List Meal) : Option Meal :=
  options[r % options.length]?

/-- The loop body of `generate_day_plan`: iterate the remaining category
lists, filtering out meals whose name is already `used`, choosing one meal
by the `step`-th raw draw, recording its name and appending it. -/
def genAux (rs : Nat → Nat) (step : Nat) (used : List String) :
    List (List Meal) → Except PlanError (List Meal)
  | [] => Except.ok []
  | cat :: rest =>
    match chooseFrom (rs step) (cat.filter (fun m => decide (m.name ∉ used))) with
    | none => Except.error PlanError.emptyCandidatePool
    | some meal =>
      match genAux rs (step + 1) (meal.name :: used) rest with
      | Except.error e => Except.error e
      | Except.ok plan => Except.ok (meal :: plan)

/-- `generate_day_plan` over an arbitrary catalog of category lists. -/
def generateDayPlanWith (cats : List (List Meal)) (rs : Nat → Nat) :
    Except PlanError (List Meal) :=
  genAux rs 0 [] cats

/-- `generate_day_plan()` over the shipped catalog, with the global RNG
modelled as the explicit draw stream `rs`. -/
def generateDayPlan (rs : Nat → Nat) : Except PlanError (List Meal) :=
  generateDayPlanWith catalogCategories rs

/-- The loop body of `generate_week_plan`: `n` more days, where day number
`day` consumes draws `rs (4*day)`, …, `rs (4*day + 3)` of the shared
stream, mirroring sequential consumption of the global RNG. -/
def genWeekAux (rs : Nat → Nat) (day : Nat) : Nat → Except PlanError (List (List Meal))
  | 0 => Except.ok []
  | n + 1 =>
    match generateDayPlan (fun i => rs (4 * day + i)) with
    | Except.error e => Except.error e
    | Except.ok d =>
      match genWeekAux rs (day + 1) n with
      | Except.error e => Except.error e
      | Except.ok ds => Except.ok (d :: ds)

/-- `generate_week_plan()`: seven independent day plans. -/
def generateWeekPlan (rs : Nat → Nat) : Except PlanError (List (List Meal)) :=
  genWeekAux rs 0 7

/-- The `Totals` aggregate of the four summed macro fields. -/
structure Totals where
  calories : ℤ
  protein : ℤ
  carbs : ℤ
  fat : ℤ
deriving DecidableEq

/-- `totals(meals)` from the source: field-wise sums over the sequence. -/
def totals (meals : List Meal) : Totals :=
  { calories := (meals.map Meal.calories).sum
    protein := (meals.map Meal.protein).sum
    carbs := (meals.map Meal.carbs).sum
    fat := (meals.map Meal.fat).sum }

/-- Field-wise addition of two `Totals` values. -/
def addTotals (a b : Totals) : Totals :=
  ⟨a.calories + b.calories, a.protein + b.protein,
   a.carbs + b.carbs, a.fat + b.fat⟩

/-- The DayPlan invariant of the specification: exactly 4 meals, the `i`-th
drawn from the `i`-th catalog category (fixed order breakfast, lunch,
dinner, snack), all meal names pairwise distinct. -/
def DayPlanInv (plan : List Meal) : Prop :=
  plan.length = 4 ∧
  List.Forall₂ (fun m c => m ∈ c) plan catalogCategories ∧
  (plan.map Meal.name).Nodup

/-- Two category lists have no meal name in common. -/
def NamesDisjoint (c₁ c₂ : List Meal) : Prop :=
  ∀ m ∈ c₁, ∀ m' ∈ c₂, m.name ≠ m'.name

instance (c₁ c₂ : List Meal) : Decidable (NamesDisjoint c₁ c₂) := by
  unfold NamesDisjoint; infer_instance

/-- The spec's wording of the Mifflin-St Jeor formula, over an abstract
male/female gender, for comparison against the source's `bmr`. -/
def mifflinStJeor (weight height age : ℚ) (male : Bool) : ℚ :=
  10 * weight + 6.25 * height - 5 * age + (if male then 5 else -161)

/-- The day plan selected when every raw draw is 0: the first meal of each
category. -/
def dayPlan0 : List Meal :=
  [ ⟨"Haferflocken mit Beeren", 500, 30, 55, 15⟩,
    ⟨"Hähnchen & Reis", 700, 45, 70, 15⟩,
    ⟨"Putenbrust & Gemüse", 600, 45, 30, 20⟩,
    ⟨"Proteinshake", 250, 30, 10, 5⟩ ]

/-- The day plan selected when every raw draw is 1: the second meal of each
category. -/
def dayPlan1 : List Meal :=
  [ ⟨"Skyr mit Nüssen", 480, 40, 35, 18⟩,
    ⟨"Lachs & Kartoffeln", 720, 40, 50, 30⟩,
    ⟨"Tofu-Gemüse-Pfanne", 580, 35, 40, 22⟩,
    ⟨"Hüttenkäse & Obst", 280, 25, 20, 8⟩ ]

/-- Truncation toward zero, written through `⌊⌋` only. -/
lemma ceil_eq_neg_floor_neg (q : ℚ) : ⌈q⌉ = -⌊-q⌋ := by
  rw [Int.floor_neg, neg_neg]

lemma mem_of_chooseFrom {r : Nat} {opts : List Meal} {m : Meal}
    (h : chooseFrom r opts = some m) : m ∈ opts := by
  unfold chooseFrom at h
  exact List.getElem?_mem h

lemma chooseFrom_of_ne_nil (r : Nat) {opts : List Meal} (h : opts ≠ []) :
    ∃ m, chooseFrom r opts = some m ∧ m ∈ opts := by
  have hlen : 0 < opts.length := List.length_pos.mpr h
  have hm : r % opts.length < opts.length := Nat.mod_lt _ hlen
  exact ⟨opts[r % opts.length],
    by simp [chooseFrom, List.getElem?_eq_getElem hm], List.getElem_mem hm⟩

/-- Structure of any successful `genAux` run: the `i`-th selected meal
belongs to the `i`-th remaining category, no selected name was already
used, and the selected names are pairwise distinct. -/
lemma genAux_spec :
    ∀ (cats : List (List Meal)) (rs : Nat → Nat) (step : Nat)
      (used : List String) (plan : List Meal),
      genAux rs step used cats = Except.ok plan →
      List.Forall₂ (fun m c => m ∈ c) plan cats ∧
      (∀ m ∈ plan, m.name ∉ used) ∧
      (plan.map Meal.name).Nodup := by
  intro cats
  induction cats with
  | nil =>
    intro rs step used plan h
    simp only [genAux] at h
    injection h with h
    subst h
    exact ⟨List.Forall₂.nil, by simp, by simp⟩
  | cons cat rest ih =>
    intro rs step used plan h
    simp only [genAux] at h
    split at h
    · exact absurd h (by simp)
    · rename_i meal hc
      split at h
      · exact absurd h (by simp)
      · rename_i tail hr
        injection h with h
        subst h
        obtain ⟨h₁, h₂, h₃⟩ := ih rs (step + 1) (meal.name :: used) tail hr
        have hmem := mem_of_chooseFrom hc
        rw [List.mem_filter] at hmem
        obtain ⟨hmc, hdec⟩ := hmem
        have hnu : meal.name ∉ used := of_decide_eq_true hdec
        refine ⟨List.Forall₂.cons hmc h₁, ?_, ?_⟩
        · intro m hm
          rcases List.mem_cons.mp hm with rfl | hm'
          · exact hnu
          · exact fun hin => h₂ m hm' (List.mem_cons_of_mem _ hin)
        · simp only [List.map_cons, List.nodup_cons]
          refine ⟨?_, h₃⟩
          intro hin
          rw [List.mem_map] at hin
          obtain ⟨m, hm, hname⟩ := hin
          exact h₂ m hm (by rw [hname]; exact List.mem_cons_self _ _)

/-- `genAux` succeeds whenever every remaining category is non-empty,
categories have pairwise disjoint name sets, and no remaining name is
already used. -/
lemma genAux_ok :
    ∀ (cats : List (List Meal)) (rs : Nat → Nat) (step : Nat)
      (used : List String),
      (∀ c ∈ cats, c ≠ []) →
      List.Pairwise NamesDisjoint cats →
      (∀ c ∈ cats, ∀ m ∈ c, m.name ∉ used) →
      ∃ plan, genAux rs step used cats = Except.ok plan := by
  intro cats
  induction cats with
  | nil => exact fun rs step used _ _ _ => ⟨[], rfl⟩
  | cons cat rest ih =>
    intro rs step used hne hpw hfresh
    have hcat : cat ≠ [] := hne cat (List.mem_cons_self _ _)
    have hfilter : cat.filter (fun m => decide (m.name ∉ used)) = cat := by
      apply List.filter_eq_self.mpr
      intro m hm
      exact decide_eq_true (hfresh cat (List.mem_cons_self _ _) m hm)
    have hfne : cat.filter (fun m => decide (m.name ∉ used)) ≠ [] := by
      rw [hfilter]; exact hcat
    obtain ⟨meal, hc, hmem⟩ := chooseFrom_of_ne_nil (rs step) hfne
    rw [hfilter] at hmem
    obtain ⟨tail, htail⟩ :=
      ih rs (step + 1) (meal.name :: used)
        (fun c hc' => hne c (List.mem_cons_of_mem _ hc'))
        hpw.of_cons
        (by
          intro c hc' m' hm' hmem'
          rcases List.mem_cons.mp hmem' with heq | hin
          · exact (List.pairwise_cons.mp hpw).1 c hc' meal hmem m' hm' heq.symm
          · exact hfresh c (List.mem_cons_of_mem _ hc') m' hm' hin)
    exact ⟨meal :: tail, by simp only [genAux, hc, htail]⟩

/-- The shipped catalog has four non-empty categories. -/
lemma catalog_nonempty : ∀ c ∈ catalogCategories, c ≠ [] := by decide

/-- The shipped catalog's category name sets are pairwise disjoint. -/
lemma catalog_disjoint : List.Pairwise NamesDisjoint catalogCategories := by decide

lemma generateDayPlan_ok (rs : Nat → Nat) :
    ∃ plan, generateDayPlan rs = Except.ok plan :=
  genAux_ok catalogCategories rs 0 [] catalog_nonempty catalog_disjoint
    (by simp)

lemma dayPlanInv_of_ok {rs : Nat → Nat} {plan : List Meal}
    (h : generateDayPlan rs = Except.ok plan) : DayPlanInv plan := by
  obtain ⟨h₁, _, h₃⟩ := genAux_spec catalogCategories rs 0 [] plan h
  exact ⟨by rw [h₁.length_eq]; rfl, h₁, h₃⟩

example : tdee 1780 1.55 = 2759 := by norm_num [tdee, truncQ]
example : protein_target 80 Goal.muskelaufbau = 176 := by
  norm_num [protein_target, truncQ]
example : generateDayPlan (fun _ => 0) = Except.ok dayPlan0 := rfl
example : generateDayPlan (fun _ => 1) = Except.ok dayPlan1 := rfl

/-- Structure of any successful week generation: one day plan per
iteration, each independently satisfying the day-plan invariant. -/
lemma genWeekAux_spec :
    ∀ (n day : Nat) (rs : Nat → Nat) (week : List (List Meal)),
      genWeekAux rs day n = Except.ok week →
      week.length = n ∧ ∀ d ∈ week, DayPlanInv d := by
  intro n
  induction n with
  | zero =>
    intro day rs week h
    simp only [genWeekAux] at h
    injection h with h
    subst h
    simp
  | succ n ih =>
    intro day rs week h
    simp only [genWeekAux] at h
    split at h
    · exact absurd h (by simp)
    · rename_i d hd
      split at h
      · exact absurd h (by simp)
      · rename_i ds hds
        injection h with h
        subst h
        obtain ⟨hlen, hinv⟩ := ih (day + 1) rs ds hds
        refine ⟨by simp [hlen], ?_⟩
        intro d' hd'
        rcases List.mem_cons.mp hd' with rfl | hmem
        · exact dayPlanInv_of_ok hd
        · exact hinv d' hmem

/-- C1: every DayPlan returned by `generateDayPlan` has length exactly 4,
its `i`-th meal is drawn from the `i`-th catalog category (fixed order
breakfast, lunch, dinner, snack), and the 4 selected meal names are
pairwise distinct. -/
theorem day_plan_invariant (rs : Nat → Nat) (plan : List Meal)
    (h : generateDayPlan rs = Except.ok plan) :
    plan.length = 4 ∧
    List.Forall₂ (fun m c => m ∈ c) plan catalogCategories ∧
    (plan.map Meal.name).Nodup :=
  dayPlanInv_of_ok h

/-- Witness for C1: the invariant holds on the concrete plan generated
from the all-zero draw stream. -/
theorem day_plan_invariant_witness :
    dayPlan0.length = 4 ∧
    List.Forall₂ (fun m c => m ∈ c) dayPlan0 catalogCategories ∧
    (dayPlan0.map Meal.name).Nodup :=
  day_plan_invariant (fun _ => 0) dayPlan0 rfl

/-- C2: under the documented input constraints, `bmr` computes the
Mifflin-St Jeor formula truncated (toward zero) to an integer, with the
male/female constant resolved by the gender argument; in particular the
documented example evaluates to 1780. -/
theorem bmr_matches_formula (weight height age : ℚ) (male : Bool)
    (hw : 0 < weight) (hh : 0 < height) (ha : 0 ≤ age) :
    bmr weight height age (if male then "Männlich" else "Weiblich") =
      truncQ (mifflinStJeor weight height age male) ∧
    bmr 80 180 30 "Männlich" = 1780 := by
  constructor
  · cases male <;> simp [bmr, mifflinStJeor]
  · norm_num [bmr, truncQ]

/-- Witness for C2 at the documented example profile. -/
theorem bmr_matches_formula_witness :
    bmr 80 180 30 (if true then "Männlich" else "Weiblich") =
      truncQ (mifflinStJeor 80 180 30 true) ∧
    bmr 80 180 30 "Männlich" = 1780 :=
  bmr_matches_formula 80 180 30 true (by norm_num) (by norm_num) (by norm_num)

/-- C3: `target_calories` multiplies the TDEE by 1.15 for muscle gain and
by 0.8 for weight loss, truncating toward zero; in particular
`target_calories muscle-gain 2759 = 3172`. -/
theorem target_calories_spec :
    (∀ t : ℤ, target_calories Goal.muskelaufbau t = truncQ (t * 1.15)) ∧
    (∀ t : ℤ, target_calories Goal.abnehmen t = truncQ (t * 0.8)) ∧
    target_calories Goal.muskelaufbau 2759 = 3172 := by
  refine ⟨fun t => rfl, fun t => rfl, ?_⟩
  norm_num [target_calories, truncQ]

/-- C4: during day-plan generation, when the current category's filtered
candidate pool is empty, the generation run fails with
`EmptyCandidatePool` and no plan is returned. -/
theorem empty_pool_fails (rs : Nat → Nat) (step : Nat) (used : List String)
    (cat : List Meal) (rest : List (List Meal))
    (h : cat.filter (fun m => decide (m.name ∉ used)) = []) :
    genAux rs step used (cat :: rest) =
      Except.error PlanError.emptyCandidatePool ∧
    ∀ plan, genAux rs step used (cat :: rest) ≠ Except.ok plan := by
  have he : genAux rs step used (cat :: rest) =
      Except.error PlanError.emptyCandidatePool := by
    simp only [genAux, h, chooseFrom, List.getElem?_nil]
  exact ⟨he, fun plan hp => by rw [he] at hp; exact Except.noConfusion hp⟩

/-- Witness for C4: a category whose only meal name was already consumed
makes the run fail. -/
theorem empty_pool_fails_witness :
    genAux (fun _ => 0) 1 ["Power-Bowl"] [[⟨"Power-Bowl", 400, 30, 40, 10⟩]] =
      Except.error PlanError.emptyCandidatePool ∧
    ∀ plan,
      genAux (fun _ => 0) 1 ["Power-Bowl"] [[⟨"Power-Bowl", 400, 30, 40, 10⟩]] ≠
        Except.ok plan :=
  empty_pool_fails (fun _ => 0) 1 ["Power-Bowl"]
    [⟨"Power-Bowl", 400, 30, 40, 10⟩] [] rfl

/-- C5: every WeekPlan returned by `generateWeekPlan` has length exactly 7
and each element independently satisfies the DayPlan invariant; no
uniqueness constraint threads between days — a meal chosen on one day may
recur on another. -/
theorem week_plan_spec :
    (∀ (rs : Nat → Nat) (week : List (List Meal)),
       generateWeekPlan rs = Except.ok week →
       week.length = 7 ∧ ∀ day ∈ week, DayPlanInv day) ∧
    (∃ (rs : Nat → Nat) (week : List (List Meal)) (m : Meal),
       generateWeekPlan rs = Except.ok week ∧
       m ∈ week.getD 0 [] ∧ m ∈ week.getD 1 []) := by
  constructor
  · exact fun rs week h => genWeekAux_spec 7 0 rs week h
  · exact ⟨fun _ => 0, List.replicate 7 dayPlan0,
      ⟨"Haferflocken mit Beeren", 500, 30, 55, 15⟩, rfl, by decide, by decide⟩

/-- Witness for C5: the week generated from the all-zero draw stream. -/
theorem week_plan_spec_witness :
    (List.replicate 7 dayPlan0).length = 7 ∧
    ∀ day ∈ List.replicate 7 dayPlan0, DayPlanInv day :=
  week_plan_spec.1 (fun _ => 0) (List.replicate 7 dayPlan0) rfl

/-- C6: `totals` is total over every meal sequence and returns the
field-wise sums; the empty sequence yields the all-zero totals. -/
theorem totals_spec :
    totals [] = ⟨0, 0, 0, 0⟩ ∧
    (∀ (m : Meal) (ms : List Meal),
       totals (m :: ms) =
         addTotals ⟨m.calories, m.protein, m.carbs, m.fat⟩ (totals ms)) ∧
    (∀ ms : List Meal,
       totals ms = ⟨(ms.map Meal.calories).sum, (ms.map Meal.protein).sum,
                    (ms.map Meal.carbs).sum, (ms.map Meal.fat).sum⟩) := by
  refine ⟨rfl, fun m ms => ?_, fun ms => rfl⟩
  simp [totals, addTotals]

/-- C7: `totals` is additive over concatenation and invariant under
permutation of the meal sequence. -/
theorem totals_append_perm :
    (∀ xs ys : List Meal,
       totals (xs ++ ys) = addTotals (totals xs) (totals ys)) ∧
    (∀ xs ys : List Meal, xs.Perm ys → totals xs = totals ys) := by
  constructor
  · intro xs ys
    simp [totals, addTotals]
  · intro xs ys hp
    have hsum : ∀ f : Meal → ℤ, (xs.map f).sum = (ys.map f).sum :=
      fun f => (hp.map f).sum_eq
    simp [totals, hsum Meal.calories, hsum Meal.protein, hsum Meal.carbs,
      hsum Meal.fat]

/-- Witness for C7: swapping two concrete meals leaves the totals
unchanged. -/
theorem totals_append_perm_witness :
    totals [⟨"Proteinshake", 250, 30, 10, 5⟩, ⟨"Hähnchen & Reis", 700, 45, 70, 15⟩] =
    totals [⟨"Hähnchen & Reis", 700, 45, 70, 15⟩, ⟨"Proteinshake", 250, 30, 10, 5⟩] :=
  totals_append_perm.2 _ _
    (List.Perm.swap (⟨"Hähnchen & Reis", 700, 45, 70, 15⟩ : Meal)
      (⟨"Proteinshake", 250, 30, 10, 5⟩ : Meal) [])

/-- C8: over the shipped catalog (four categories of three meals each with
pairwise distinct names), the empty-pool failure branch is unreachable:
generation succeeds for every draw stream. -/
theorem shipped_catalog_never_fails (rs : Nat → Nat) :
    generateDayPlan rs ≠ Except.error PlanError.emptyCandidatePool ∧
    ∃ plan, generateDayPlan rs = Except.ok plan := by
  obtain ⟨plan, hp⟩ := generateDayPlan_ok rs
  exact ⟨by rw [hp]; simp, plan, hp⟩

/-- C9: the generator is a function of an injectable draw stream: equal
streams give identical output, different streams may give different
output, and every successful output satisfies the DayPlan invariant. -/
theorem day_plan_random_source :
    (∀ rs₁ rs₂ : Nat → Nat, (∀ i, rs₁ i = rs₂ i) →
       generateDayPlan rs₁ = generateDayPlan rs₂) ∧
    (∃ (rs₁ rs₂ : Nat → Nat) (p₁ p₂ : List Meal),
       generateDayPlan rs₁ = Except.ok p₁ ∧
       generateDayPlan rs₂ = Except.ok p₂ ∧ p₁ ≠ p₂) ∧
    (∀ (rs : Nat → Nat) (plan : List Meal),
       generateDayPlan rs = Except.ok plan → DayPlanInv plan) := by
  refine ⟨?_, ?_, ?_⟩
  · intro rs₁ rs₂ h
    rw [funext h]
  · exact ⟨fun _ => 0, fun _ => 1, dayPlan0, dayPlan1, rfl, rfl, by decide⟩
  · exact fun rs plan h => dayPlanInv_of_ok h

/-- Witness for C9: replaying the all-zero stream reproduces the same
call, and its concrete output satisfies the invariant. -/
theorem day_plan_random_source_witness :
    generateDayPlan (fun _ => 0) = generateDayPlan (fun _ => 0) ∧
    DayPlanInv dayPlan0 :=
  ⟨day_plan_random_source.1 (fun _ => 0) (fun _ => 0) (fun _ => rfl),
   day_plan_random_source.2.2 (fun _ => 0) dayPlan0 rfl⟩

/-- C10: `bmr` adds the +5 male constant exactly when the gender string is
"Männlich"; every other string gets the -161 female constant. -/
theorem bmr_gender_constant :
    (∀ weight height age : ℚ,
       bmr weight height age "Männlich" =
         truncQ (10 * weight + 6.25 * height - 5 * age + 5)) ∧
    (∀ (weight height age : ℚ) (gender : String), gender ≠ "Männlich" →
       bmr weight height age gender =
         truncQ (10 * weight + 6.25 * height - 5 * age - 161)) := by
  constructor
  · intro w h a
    simp [bmr]
  · intro w h a g hg
    rw [bmr, if_neg hg]
    congr 1
    ring

/-- Witness for C10: a lowercase gender string falls through to the
female constant. -/
theorem bmr_gender_constant_witness :
    bmr 80 180 30 "männlich" = truncQ (10 * 80 + 6.25 * 180 - 5 * 30 - 161) :=
  bmr_gender_constant.2 80 180 30 "männlich" (by decide)
